import Mathlib

/-!
# Verification of the foyer storage-engine flush pipeline

Shallow embedding of the flush pipeline of the `foyer` persistent cache:
`FlushBuffer` (`src/foyer-storage/src/buffer.rs`), the `Flusher` event loop
(`src/foyer-storage/src/flusher.rs`), and the `FsDeviceConfig` builder
(`src/foyer-storage/src/device/fs.rs`).

Modelling conventions:
* Byte buffers are abstracted to their length (`buflen`), plus the region
  header staged in the first aligned block.  The claims under scrutiny
  quantify only over offsets, lengths and error propagation, never over
  payload byte values.
* The external serialization codecs (`bincode`, `zstd`, `lz4`) are oracles
  carried by each entry: either a resulting byte length or a codec failure
  together with the number of bytes the encoder appended before failing.
* Device writes are asynchronous I/O; each operation that issues a device
  write takes a boolean telling whether that write succeeds.
* Machine integers (`usize`, `u64`) are modelled as `Nat`; none of the
  quantities involved can overflow 64 bits in the scenarios the spec fixes,
  and the source performs no wrapping arithmetic on them.
-/

/-- Modelled from the spec (`foyer-common` `bits::align_up` is not under
`src/`): the least multiple of `align` that is `≥ v`; the spec uses it as
"padding to align" and "rounded ... to a multiple of align". -/
def align_up (align v : Nat) : Nat := (v + align - 1) / align * align

/-- Modelled from the spec (`foyer-common` `bits::is_aligned` is not under
`src/`): `v` is a multiple of `align`. -/
def is_aligned (align v : Nat) : Prop := align ∣ v

/-- `Compression` variants, from `src/foyer-storage/src/compress.rs` usage
sites (spec: compression ∈ \{None, Zstd, Lz4\}). -/
inductive Compression
  | none
  | zstd
  | lz4
deriving DecidableEq

/-- Outcome of running an external encoder against the staging buffer:
either the number of bytes appended on success, or a codec failure after
`written` bytes were already appended.  The encoders themselves are outside
the repository (spec §1: codecs are out of scope). -/
inductive CodecResult
  | ok (len : Nat)
  | err (written : Nat)
deriving DecidableEq

/-- `Entry` from `src/foyer-storage/src/flusher.rs`.  `key`/`value` stand
for the `Arc<K>`/`Arc<V>` handles; `valueEnc` is the oracle for serializing
the value under `compression`, `keyEnc` the oracle for serializing the key. -/
structure Entry where
  key : Nat
  value : Nat
  valueEnc : CodecResult
  keyEnc : CodecResult
  sequence : Nat
  compression : Compression
deriving DecidableEq

/-- `PositionedEntry` from `src/foyer-storage/src/buffer.rs`. -/
structure PositionedEntry where
  entry : Entry
  region : Nat
  offset : Nat
  len : Nat
deriving DecidableEq

/-- The device geometry the `FlushBuffer` consults (`Device::align`,
`Device::region_size`, `Device::io_size`). -/
structure DeviceConfig where
  align : Nat
  file_size : Nat
  io_size : Nat
deriving DecidableEq

/-- Modelled from the spec (the `Device` trait's provided `region_size` is
not under `src/`): a region's size is the device file size (spec §3:
"size: bytes (= device.file_size)"). -/
def DeviceConfig.region_size (cfg : DeviceConfig) : Nat := cfg.file_size

/-- Modelled from the spec (`src/foyer-storage/src/region.rs` is not under
`src/`): `RegionHeader \{ magic: u64 constant, version: u16 \}`. -/
structure RegionHeader where
  magic : Nat
  version : Nat
deriving DecidableEq

/-- Modelled from the spec: the magic is a fixed `u64` constant; its value
is immaterial to every claim. -/
def REGION_MAGIC : Nat := 0x19970327

/-- Modelled from the spec: the latest on-disk format version. -/
def Version.latest : Nat := 1

/-- Modelled from the spec (`src/foyer-storage/src/generic.rs` is not under
`src/`): `EntryHeader \{ key_len: u32, value_len: u32, sequence: u64,
compression: u8, checksum: u64 \}`, hence `4 + 4 + 8 + 1 + 8 = 25` bytes. -/
def EntryHeader.serialized_len : Nat := 25

/-- Error taxonomy of `BufferError` in `src/foyer-storage/src/buffer.rs`,
restricted to the variants the pipeline can produce: `codecError` covers
the `Bincode`/compressor failures, `deviceError` the `Io`/`Device`
failures. -/
inductive BufferError
  | codecError
  | deviceError
deriving DecidableEq

/-- `FlushBuffer` state from `src/foyer-storage/src/buffer.rs`.  The byte
vector is abstracted to its length `buflen` together with `hdr`, the region
header staged in the first aligned block right after a rotation (if any). -/
structure FlushBuffer where
  buflen : Nat
  hdr : Option RegionHeader
  region : Option Nat
  offset : Nat
  entries : List PositionedEntry
  cfg : DeviceConfig
deriving DecidableEq

/-- `FlushBuffer::new`: empty aligned buffer, no region installed. -/
def FlushBuffer.new (cfg : DeviceConfig) : FlushBuffer :=
  { buflen := 0, hdr := none, region := none, offset := 0, entries := [], cfg := cfg }

/-- `FlushBuffer::remaining`. -/
def FlushBuffer.remaining (b : FlushBuffer) : Nat :=
  match b.region with
  | none => 0
  | some _ => b.cfg.region_size - (b.offset + b.buflen)

/-- `FlushBuffer::flush`.  `ok` is the outcome of the device write.  The
staging buffer is swapped for a fresh empty one *before* the write is
issued; on failure the entries stay queued and the error propagates. -/
def FlushBuffer.flush (b : FlushBuffer) (ok : Bool) :
    FlushBuffer × Except BufferError (List PositionedEntry) :=
  match b.region with
  | none => (b, .ok [])
  | some region =>
    -- align io buffer, then swap it out for a fresh empty buffer
    let len := align_up b.cfg.align b.buflen
    if ok then
      let offset' := b.offset + len
      ({ b with
          buflen := 0
          hdr := none
          offset := offset'
          region := if offset' = b.cfg.region_size then none else some region
          entries := [] },
        .ok b.entries)
    else
      ({ b with buflen := 0, hdr := none }, .error .deviceError)

/-- `FlushBuffer::rotate`: flush, then install the new region and stage the
region header in the first aligned block. -/
def FlushBuffer.rotate (b : FlushBuffer) (region : Nat) (ok : Bool) :
    FlushBuffer × Except BufferError (List PositionedEntry) :=
  match b.flush ok with
  | (b', .error e) => (b', .error e)
  | (b', .ok entries) =>
    ({ b' with
        region := some region
        offset := 0
        buflen := b'.cfg.align
        hdr := some { magic := REGION_MAGIC, version := Version.latest } },
      .ok entries)

/-- `FlushBuffer::write`.  Mirrors the source control flow: bail out when no
region is installed; reserve the header; run the value and key encoders
(each may fail, leaving its partial output in the buffer); roll back and
return the entry when the staged bytes overflow the region; otherwise pad,
record the `PositionedEntry`, and auto-flush when the buffer reached the
device io size or the region is exactly full. -/
def FlushBuffer.write (b : FlushBuffer) (e : Entry) (ok : Bool) :
    FlushBuffer × Except BufferError (Sum (List PositionedEntry) Entry) :=
  match b.region with
  | none => (b, .ok (.inr e))
  | some r =>
    let old := b.buflen
    match e.valueEnc with
    | .err written =>
      ({ b with buflen := old + EntryHeader.serialized_len + written }, .error .codecError)
    | .ok vlen =>
      match e.keyEnc with
      | .err written =>
        ({ b with buflen := old + EntryHeader.serialized_len + vlen + written },
          .error .codecError)
      | .ok klen =>
        let len1 := old + EntryHeader.serialized_len + vlen + klen
        if b.cfg.region_size < b.offset + len1 then
          -- (*) size exceeds region limit: roll back the write and return
          ({ b with buflen := old }, .ok (.inr e))
        else
          let target := align_up b.cfg.align len1
          let pe : PositionedEntry :=
            { entry := e, region := r, offset := b.offset + old, len := target - old }
          let b1 : FlushBuffer := { b with buflen := target, entries := b.entries ++ [pe] }
          if b1.cfg.io_size ≤ b1.buflen ∨ b1.remaining = 0 then
            match b1.flush ok with
            | (b2, .ok es) => (b2, .ok (.inl es))
            | (b2, .error er) => (b2, .error er)
          else
            (b1, .ok (.inl []))

deriving instance DecidableEq for Except

/-- `View` from the catalog contract: an immutable
`(region, offset, len)` triple (`region.view(offset, len)`). -/
structure View where
  region : Nat
  offset : Nat
  len : Nat
deriving DecidableEq

/-- `Item` stored in the catalog: `\{ sequence, index: View \}`. -/
structure Item where
  sequence : Nat
  view : View
deriving DecidableEq

/-- The catalog as an association list from (abstract) keys to items. -/
abbrev Catalog := List (Nat × Item)

/-- `Catalog::lookup`. -/
def Catalog.lookup (c : Catalog) (k : Nat) : Option Item :=
  match c with
  | [] => none
  | (k', it) :: rest => if k' = k then some it else Catalog.lookup rest k

/-- Modelled from the spec (`src/foyer-storage/src/catalog.rs` is not under
`src/`): `insert(key, Item)` is last-writer-wins by sequence — the write is
discarded when an item with a strictly greater sequence is already
present. -/
def Catalog.insert (c : Catalog) (k : Nat) (it : Item) : Catalog :=
  match Catalog.lookup c k with
  | some itOld =>
    if it.sequence < itOld.sequence then c
    else (k, it) :: c.filter (fun p => p.fst != k)
  | none => (k, it) :: c

/-- `Flusher::update_catalog` from `src/foyer-storage/src/flusher.rs`: build
a `View` for each `PositionedEntry` and insert it keyed by the entry's key
with the entry's sequence. -/
def update_catalog (c : Catalog) (entries : List PositionedEntry) : Catalog :=
  entries.foldl
    (fun cat pe =>
      Catalog.insert cat pe.entry.key
        { sequence := pe.entry.sequence
          view := { region := pe.region, offset := pe.offset, len := pe.len } })
    c

/-- The `Flusher` state the claims are about: its `FlushBuffer` and the
shared catalog.  The region manager and metrics are external collaborators
whose state none of the claims mention. -/
structure FlusherState where
  buffer : FlushBuffer
  catalog : Catalog
deriving DecidableEq

/-- The stop/close branch of `Flusher::run` (`src/foyer-storage/src/flusher.rs`
lines 120-132): both when `entry_rx` is closed and when `stop_rx` fires, the
loop calls `self.buffer.flush().await?` and returns — the `PositionedEntry`
list that `flush` returns is dropped, not passed to `update_catalog`. -/
def Flusher.runStop (st : FlusherState) (ok : Bool) :
    FlusherState × Except BufferError Unit :=
  match st.buffer.flush ok with
  | (b', .error e) => ({ st with buffer := b' }, .error e)
  | (b', .ok _entries) => ({ st with buffer := b' }, .ok ())

/-- Outcome of one `Flusher::handle` call: normal return, error
propagation (`?`), or a Rust panic (`unwrap_left` applied to a `Right`). -/
inductive HandleResult
  | ok (st : FlusherState)
  | err (st : FlusherState) (e : BufferError)
  | crashed (st : FlusherState)
deriving DecidableEq

/-- Whether a `HandleResult` is a normal return. -/
def HandleResult.isOk : HandleResult → Bool
  | .ok _ => true
  | _ => false

/-- Whether a `HandleResult` is a panic of the flusher task. -/
def HandleResult.isCrashed : HandleResult → Bool
  | .crashed _ => true
  | _ => false

/-- `Flusher::handle` from `src/foyer-storage/src/flusher.rs`.  `newRegion`
is the clean region `region_manager.clean_regions().acquire()` hands out;
`ok1`/`ok2`/`ok3` are the outcomes of the device writes the first `write`,
the `rotate`, and the retried `write` may issue.  The `eviction_push` of the
old region and the metrics updates touch only external collaborators and
are not part of the modelled state.  The retried write's result is consumed
with `unwrap_left()`, so a `Right` result at that point is a panic. -/
def Flusher.handle (st : FlusherState) (e : Entry) (newRegion : Nat)
    (ok1 ok2 ok3 : Bool) : HandleResult :=
  match st.buffer.write e ok1 with
  | (b1, .error er) => .err { st with buffer := b1 } er
  | (b1, .ok (.inl entries)) =>
    .ok { buffer := b1, catalog := update_catalog st.catalog entries }
  | (b1, .ok (.inr e')) =>
    match b1.rotate newRegion ok2 with
    | (b2, .error er) => .err { st with buffer := b2 } er
    | (b2, .ok entries) =>
      let cat2 := update_catalog st.catalog entries
      match b2.write e' ok3 with
      | (b3, .error er) => .err { buffer := b3, catalog := cat2 } er
      | (b3, .ok (.inr _)) => .crashed { buffer := b3, catalog := cat2 }
      | (b3, .ok (.inl entries2)) =>
        .ok { buffer := b3, catalog := update_catalog cat2 entries2 }

/-- Rust `usize::is_power_of_two`: exactly one bit set. -/
def is_power_of_two (n : Nat) : Bool := n != 0 && (n &&& (n - 1)) == 0

/-- The `align_v` closure in `FsDeviceConfigBuilder::build`
(`src/foyer-storage/src/device/fs.rs`): round `value` down to a multiple of
`align`. -/
def align_v (value align : Nat) : Nat := value - value % align

/-- Rust `Ord::clamp`: panics (here: `none`) when `lo > hi`. -/
def rustClamp (x lo hi : Nat) : Option Nat :=
  if hi < lo then none else some (min (max x lo) hi)

/-- `FsDeviceConfig` from `src/foyer-storage/src/device/fs.rs` (the `dir`
path is environmental and not modelled). -/
structure FsDeviceConfig where
  capacity : Nat
  file_size : Nat
  align : Nat
  io_size : Nat
deriving DecidableEq

/-- `FsDeviceConfig::assert`. -/
def FsDeviceConfig.assertProp (c : FsDeviceConfig) : Prop :=
  is_power_of_two c.align = true ∧ c.file_size % c.align = 0 ∧ c.capacity % c.file_size = 0

/-- `FsDeviceConfigBuilder` option fields (the `dir` path is environmental
and not modelled). -/
structure FsDeviceConfigBuilder where
  capacity : Option Nat
  file_size : Option Nat
  align : Option Nat
  io_size : Option Nat
deriving DecidableEq

/-- `FsDeviceConfigBuilder::DEFAULT_ALIGN`. -/
def FsDeviceConfigBuilder.DEFAULT_ALIGN : Nat := 4096

/-- `FsDeviceConfigBuilder::DEFAULT_IO_SIZE`. -/
def FsDeviceConfigBuilder.DEFAULT_IO_SIZE : Nat := 16 * 1024

/-- `FsDeviceConfigBuilder::DEFAULT_FILE_SIZE`. -/
def FsDeviceConfigBuilder.DEFAULT_FILE_SIZE : Nat := 64 * 1024 * 1024

/-- `FsDeviceConfigBuilder::build`.  `free` is the filesystem free space the
`freespace(&dir)` call reports (environmental input); the default capacity
is `free / 10 * 8`.  Rust panics when `clamp` is called with `lo > hi`,
modelled by `none`.  (Rust would also panic on `% 0`; under the claim's
power-of-two alignment every modulus below is positive.) -/
def FsDeviceConfigBuilder.build (b : FsDeviceConfigBuilder) (free : Nat) :
    Option FsDeviceConfig :=
  let align := b.align.getD FsDeviceConfigBuilder.DEFAULT_ALIGN
  let capacity := b.capacity.getD (free / 10 * 8)
  let capacity := align_v capacity align
  match rustClamp (b.file_size.getD FsDeviceConfigBuilder.DEFAULT_FILE_SIZE) align capacity with
  | none => none
  | some fs0 =>
    let file_size := align_v fs0 align
    let capacity := align_v capacity file_size
    let io_size := align_v (max (b.io_size.getD FsDeviceConfigBuilder.DEFAULT_IO_SIZE) align) align
    some { capacity := capacity, file_size := file_size, align := align, io_size := io_size }

/-- The conjunction claim C9 asserts of a built config, phrased over the
optional build result (`False` when the build panics). -/
def buildAsserted : Option FsDeviceConfig → Prop
  | none => False
  | some c =>
    c.assertProp ∧ c.align ≤ c.file_size ∧ c.align ≤ c.io_size ∧ c.io_size % c.align = 0

/-- The property claim C4 asserts of every produced `PositionedEntry`. -/
def goodEntry (cfg : DeviceConfig) (pe : PositionedEntry) : Prop :=
  pe.offset % cfg.align = 0 ∧ pe.len % cfg.align = 0 ∧ pe.offset + pe.len ≤ cfg.region_size

instance (cfg : DeviceConfig) (pe : PositionedEntry) : Decidable (goodEntry cfg pe) := by
  unfold goodEntry
  infer_instance

/-- The `PositionedEntry` a non-overflowing `write` records (source step:
`entries.push(PositionedEntry { entry, region, offset: offset + old,
len: buffer.len() - old })`). -/
def stagedEntry (b : FlushBuffer) (e : Entry) (r vl kl : Nat) : PositionedEntry :=
  { entry := e
    region := r
    offset := b.offset + b.buflen
    len := align_up b.cfg.align (b.buflen + EntryHeader.serialized_len + vl + kl) - b.buflen }

/-- The buffer state right after a non-overflowing `write` staged its entry
and padded the buffer, before the optional auto-flush. -/
def stagedBuffer (b : FlushBuffer) (e : Entry) (r vl kl : Nat) : FlushBuffer :=
  { b with
      buflen := align_up b.cfg.align (b.buflen + EntryHeader.serialized_len + vl + kl)
      entries := b.entries ++ [stagedEntry b e r vl kl] }

/-- The `FlushBuffer` invariant (spec §4.2): alignment of the staged length
and of the region offset, the staged bytes fit in the region, an empty
buffer when no region is installed, and well-positioned queued entries.
The device-geometry conjuncts mirror `FsDeviceConfig::assert` plus the
builder's clamp of `file_size` to at least `align`. -/
structure BufInv (b : FlushBuffer) : Prop where
  alignPos : 0 < b.cfg.align
  alignDvdRegionSize : b.cfg.align ∣ b.cfg.file_size
  alignLeRegionSize : b.cfg.align ≤ b.cfg.file_size
  alignDvdBuflen : b.cfg.align ∣ b.buflen
  alignDvdOffset : b.cfg.align ∣ b.offset
  fits : b.offset + b.buflen ≤ b.cfg.file_size
  noneEmpty : b.region = none → b.buflen = 0 ∧ b.entries = []
  entriesGood : ∀ pe ∈ b.entries, goodEntry b.cfg pe

/-- One `FlushBuffer` operation of a claim-C4 run. -/
inductive BufOp
  | rotateOp (r : Nat)
  | writeOp (e : Entry)
  | flushOp
deriving DecidableEq

/-- Apply one operation with a succeeding device; collect the
`PositionedEntry` records the operation reports as fully flushed (a
`write` that asks for rotation reports none). -/
def applyOp (b : FlushBuffer) : BufOp → FlushBuffer × Except BufferError (List PositionedEntry)
  | .rotateOp r => b.rotate r true
  | .flushOp => b.flush true
  | .writeOp e =>
    match b.write e true with
    | (b', .ok (.inl es)) => (b', .ok es)
    | (b', .ok (.inr _)) => (b', .ok [])
    | (b', .error er) => (b', .error er)

/-- Run a sequence of operations from a state, stopping at the first
failing operation; return the final state and every `PositionedEntry` the
successful operations produced. -/
def runOps (b : FlushBuffer) : List BufOp → FlushBuffer × List PositionedEntry
  | [] => (b, [])
  | op :: ops =>
    match applyOp b op with
    | (b', .ok es) => ((runOps b' ops).1, es ++ (runOps b' ops).2)
    | (b', .error _) => (b', [])

/-! Concrete data for the literal spec scenarios (§8; `align = 4096`,
`file_size = 65536`, `io_size = 16384`) and for witnesses and
counterexamples.  The serialized sizes mirror the source test
`test_flush_buffer`: a `Vec<u8>` of `n` bytes bincode-encodes to `n + 8`
bytes and the unit key to `0` bytes, so the ~54 KiB entry
(`54 * 1024 - 128` payload bytes) has `valueEnc = ok 55176` and the ~3 KiB
entry (`3 * 1024 - 128` payload bytes) has `valueEnc = ok 2952`. -/

def c7cfg : DeviceConfig := { align := 4096, file_size := 65536, io_size := 16384 }

def c7entryA : Entry :=
  { key := 1, value := 1, valueEnc := .ok 55176, keyEnc := .ok 0, sequence := 1
    compression := .none }

def c7entryB : Entry :=
  { key := 2, value := 2, valueEnc := .ok 2952, keyEnc := .ok 0, sequence := 2
    compression := .none }

def c7b1 : FlushBuffer := ((FlushBuffer.new c7cfg).rotate 1 true).1

def c7b2 : FlushBuffer := (c7b1.write c7entryA true).1

def c5buf : FlushBuffer := FlushBuffer.new c7cfg

def c5entry : Entry :=
  { key := 4, value := 4, valueEnc := .ok 10, keyEnc := .ok 0, sequence := 4
    compression := .none }

def c6buf : FlushBuffer :=
  { buflen := 4096, hdr := none, region := some 0, offset := 4096
    entries := [{ entry := c7entryB, region := 0, offset := 4096, len := 4096 }]
    cfg := c7cfg }

def c10buf : FlushBuffer :=
  { buflen := 8192, hdr := none, region := some 2, offset := 12288
    entries := [{ entry := c7entryB, region := 2, offset := 12288, len := 8192 }]
    cfg := c7cfg }

def c1entry : Entry :=
  { key := 7, value := 7, valueEnc := .ok 100, keyEnc := .ok 0, sequence := 7
    compression := .none }

def c1state : FlusherState :=
  { buffer :=
      { buflen := 4096, hdr := none, region := some 0, offset := 4096
        entries := [{ entry := c1entry, region := 0, offset := 4096, len := 4096 }]
        cfg := c7cfg }
    catalog := [] }

def c2buf : FlushBuffer :=
  { buflen := 0, hdr := none, region := some 0, offset := 0, entries := [], cfg := c7cfg }

def c2entry : Entry :=
  { key := 3, value := 3, valueEnc := .err 7, keyEnc := .ok 0, sequence := 3
    compression := .zstd }

def c3state : FlusherState := { buffer := FlushBuffer.new c7cfg, catalog := [] }

def c3bigEntry : Entry :=
  { key := 9, value := 9, valueEnc := .ok 65536, keyEnc := .ok 0, sequence := 9
    compression := .none }

def c3smallEntry : Entry :=
  { key := 8, value := 8, valueEnc := .ok 100, keyEnc := .ok 0, sequence := 8
    compression := .none }

section ArithLemmas

theorem is_power_of_two_pos {n : Nat} (h : is_power_of_two n = true) : 0 < n := by
  have h' := (Bool.and_eq_true _ _).mp h
  have : n ≠ 0 := by simpa using h'.1
  omega

theorem align_v_eq_mul (v a : Nat) : align_v v a = a * (v / a) := by
  have hd := Nat.div_add_mod v a
  unfold align_v
  omega

theorem align_v_mod (v a : Nat) : align_v v a % a = 0 := by
  rw [align_v_eq_mul]
  exact Nat.mul_mod_right a _

theorem align_v_dvd (v a : Nat) : a ∣ align_v v a := by
  rw [align_v_eq_mul]
  exact Dvd.intro _ rfl

theorem align_v_le_self (v a : Nat) : align_v v a ≤ v := Nat.sub_le _ _

theorem le_align_v (v a : Nat) (ha : 0 < a) (hv : a ≤ v) : a ≤ align_v v a := by
  rw [align_v_eq_mul]
  have h1 : 1 ≤ v / a := (Nat.one_le_div_iff ha).mpr hv
  calc a = a * 1 := (Nat.mul_one a).symm
    _ ≤ a * (v / a) := Nat.mul_le_mul_left a h1

theorem align_up_dvd (a v : Nat) : a ∣ align_up a v := by
  unfold align_up
  exact dvd_mul_left a _

theorem le_align_up (a v : Nat) (ha : 0 < a) : v ≤ align_up a v := by
  unfold align_up
  rw [Nat.mul_comm]
  have hd := Nat.div_add_mod (v + a - 1) a
  have hm : (v + a - 1) % a < a := Nat.mod_lt _ ha
  omega

theorem align_up_le (a v m : Nat) (ha : 0 < a) (hd : a ∣ m) (hle : v ≤ m) :
    align_up a v ≤ m := by
  obtain ⟨k, hk⟩ := hd
  subst hk
  unfold align_up
  have hlt : (v + a - 1) / a < k + 1 := by
    rw [Nat.div_lt_iff_lt_mul ha]
    calc v + a - 1 < a * k + a := by omega
      _ = (k + 1) * a := by ring
  have hq : (v + a - 1) / a ≤ k := by omega
  calc (v + a - 1) / a * a ≤ k * a := Nat.mul_le_mul_right a hq
    _ = a * k := Nat.mul_comm _ _

theorem align_up_eq_of_dvd (a v : Nat) (ha : 0 < a) (hd : a ∣ v) :
    align_up a v = v :=
  Nat.le_antisymm (align_up_le a v v ha hd le_rfl) (le_align_up a v ha)

theorem align_up_zero (a : Nat) (ha : 0 < a) : align_up a 0 = 0 :=
  align_up_eq_of_dvd a 0 ha (dvd_zero a)

end ArithLemmas

section Characterization

theorem flush_none_eq (b : FlushBuffer) (ok : Bool) (hr : b.region = none) :
    b.flush ok = (b, .ok []) := by
  simp [FlushBuffer.flush, hr]

theorem flush_some_true_eq (b : FlushBuffer) (r : Nat) (hr : b.region = some r) :
    b.flush true =
      ({ b with
          buflen := 0
          hdr := none
          offset := b.offset + align_up b.cfg.align b.buflen
          region :=
            if b.offset + align_up b.cfg.align b.buflen = b.cfg.region_size then none
            else some r
          entries := [] },
        .ok b.entries) := by
  simp [FlushBuffer.flush, hr]

theorem flush_some_false_eq (b : FlushBuffer) (r : Nat) (hr : b.region = some r) :
    b.flush false = ({ b with buflen := 0, hdr := none }, .error .deviceError) := by
  simp [FlushBuffer.flush, hr]

theorem flush_cfg (b : FlushBuffer) (ok : Bool) : (b.flush ok).1.cfg = b.cfg := by
  cases hr : b.region with
  | none => rw [flush_none_eq b ok hr]
  | some r =>
    cases ok with
    | true => rw [flush_some_true_eq b r hr]
    | false => rw [flush_some_false_eq b r hr]

theorem rotate_cfg (b : FlushBuffer) (r : Nat) (ok : Bool) :
    (b.rotate r ok).1.cfg = b.cfg := by
  unfold FlushBuffer.rotate
  cases hf : b.flush ok with
  | mk b' res =>
    have hcfg : b'.cfg = b.cfg := by rw [← flush_cfg b ok, hf]
    cases res with
    | error e => simpa using hcfg
    | ok es => simpa using hcfg

theorem write_none_eq (b : FlushBuffer) (e : Entry) (ok : Bool) (hr : b.region = none) :
    b.write e ok = (b, .ok (.inr e)) := by
  simp [FlushBuffer.write, hr]

theorem write_valueErr_eq (b : FlushBuffer) (e : Entry) (ok : Bool) (r w : Nat)
    (hr : b.region = some r) (hv : e.valueEnc = .err w) :
    b.write e ok =
      ({ b with buflen := b.buflen + EntryHeader.serialized_len + w }, .error .codecError) := by
  simp [FlushBuffer.write, hr, hv]

theorem write_keyErr_eq (b : FlushBuffer) (e : Entry) (ok : Bool) (r vl w : Nat)
    (hr : b.region = some r) (hv : e.valueEnc = .ok vl) (hk : e.keyEnc = .err w) :
    b.write e ok =
      ({ b with buflen := b.buflen + EntryHeader.serialized_len + vl + w },
        .error .codecError) := by
  simp [FlushBuffer.write, hr, hv, hk]

theorem write_overflow_eq (b : FlushBuffer) (e : Entry) (ok : Bool) (r vl kl : Nat)
    (hr : b.region = some r) (hv : e.valueEnc = .ok vl) (hk : e.keyEnc = .ok kl)
    (hof : b.cfg.region_size < b.offset + (b.buflen + EntryHeader.serialized_len + vl + kl)) :
    b.write e ok = (b, .ok (.inr e)) := by
  simp only [FlushBuffer.write, hr, hv, hk]
  rw [if_pos (by simpa [Nat.add_assoc] using hof), ← hr]

theorem write_stage_eq (b : FlushBuffer) (e : Entry) (ok : Bool) (r vl kl : Nat)
    (hr : b.region = some r) (hv : e.valueEnc = .ok vl) (hk : e.keyEnc = .ok kl)
    (hno : b.offset + (b.buflen + EntryHeader.serialized_len + vl + kl) ≤ b.cfg.region_size)
    (hsmall : ¬(b.cfg.io_size ≤ (stagedBuffer b e r vl kl).buflen ∨
        (stagedBuffer b e r vl kl).remaining = 0)) :
    b.write e ok = (stagedBuffer b e r vl kl, .ok (.inl [])) := by
  simp only [FlushBuffer.write, hr, hv, hk]
  rw [if_neg (by simp only [Nat.add_assoc] at hno ⊢; omega)]
  rw [if_neg (by simpa [stagedBuffer, stagedEntry, Nat.add_assoc, hr] using hsmall)]
  simp [stagedBuffer, stagedEntry, Nat.add_assoc, hr]

theorem write_autoflush_eq (b : FlushBuffer) (e : Entry) (r vl kl : Nat)
    (hr : b.region = some r) (hv : e.valueEnc = .ok vl) (hk : e.keyEnc = .ok kl)
    (hno : b.offset + (b.buflen + EntryHeader.serialized_len + vl + kl) ≤ b.cfg.region_size)
    (hbig : b.cfg.io_size ≤ (stagedBuffer b e r vl kl).buflen ∨
        (stagedBuffer b e r vl kl).remaining = 0) :
    b.write e true =
      (((stagedBuffer b e r vl kl).flush true).1,
        .ok (.inl (b.entries ++ [stagedEntry b e r vl kl]))) := by
  simp only [FlushBuffer.write, hr, hv, hk]
  rw [if_neg (by simp only [Nat.add_assoc] at hno ⊢; omega)]
  rw [if_pos (by simpa [stagedBuffer, stagedEntry, Nat.add_assoc, hr] using hbig)]
  simp [FlushBuffer.flush, stagedBuffer, stagedEntry, Nat.add_assoc, hr]

end Characterization

section Invariant

theorem mod_eq_zero_of_dvd {a b : Nat} (h : a ∣ b) : b % a = 0 := by
  obtain ⟨c, rfl⟩ := h
  exact Nat.mul_mod_right a c

theorem bufInv_new (cfg : DeviceConfig) (h1 : 0 < cfg.align)
    (h2 : cfg.align ∣ cfg.file_size) (h3 : cfg.align ≤ cfg.file_size) :
    BufInv (FlushBuffer.new cfg) := by
  refine ⟨h1, h2, h3, ?_, ?_, ?_, ?_, ?_⟩ <;> simp [FlushBuffer.new]

theorem flush_true_inv (b : FlushBuffer) (h : BufInv b) : BufInv (b.flush true).1 := by
  cases hr : b.region with
  | none =>
    rw [flush_none_eq b true hr]
    exact h
  | some r =>
    rw [flush_some_true_eq b r hr]
    have hup : align_up b.cfg.align b.buflen = b.buflen :=
      align_up_eq_of_dvd _ _ h.alignPos h.alignDvdBuflen
    dsimp only
    refine ⟨h.alignPos, h.alignDvdRegionSize, h.alignLeRegionSize, ?_, ?_, ?_, ?_, ?_⟩
    · exact dvd_zero _
    · exact Dvd.dvd.add h.alignDvdOffset (align_up_dvd _ _)
    · rw [hup]
      show b.offset + b.buflen + 0 ≤ b.cfg.file_size
      have := h.fits
      omega
    · intro _
      exact ⟨rfl, rfl⟩
    · simp

theorem flush_true_ret (b : FlushBuffer) :
    (b.flush true).2 = .ok [] ∨ (b.flush true).2 = .ok b.entries := by
  cases hr : b.region with
  | none =>
    rw [flush_none_eq b true hr]
    exact Or.inl rfl
  | some r =>
    rw [flush_some_true_eq b r hr]
    exact Or.inr rfl

theorem stagedBuffer_inv (b : FlushBuffer) (e : Entry) (r vl kl : Nat) (h : BufInv b)
    (hr : b.region = some r)
    (hno : b.offset + (b.buflen + EntryHeader.serialized_len + vl + kl) ≤ b.cfg.region_size) :
    BufInv (stagedBuffer b e r vl kl) ∧ goodEntry b.cfg (stagedEntry b e r vl kl) := by
  set len1 := b.buflen + EntryHeader.serialized_len + vl + kl with hlen1
  set target := align_up b.cfg.align len1 with htarget
  have hdvdRest : b.cfg.align ∣ b.cfg.file_size - b.offset :=
    Nat.dvd_sub' h.alignDvdRegionSize h.alignDvdOffset
  have hle1 : len1 ≤ b.cfg.file_size - b.offset := by
    have := h.fits
    simp only [DeviceConfig.region_size] at hno
    omega
  have htle : target ≤ b.cfg.file_size - b.offset :=
    align_up_le _ _ _ h.alignPos hdvdRest hle1
  have hofle : b.offset ≤ b.cfg.file_size := by
    have := h.fits
    omega
  have hfits' : b.offset + target ≤ b.cfg.file_size := by omega
  have hbt : b.buflen ≤ target := by
    have h1 : len1 ≤ target := le_align_up _ _ h.alignPos
    omega
  have hgood : goodEntry b.cfg (stagedEntry b e r vl kl) := by
    refine ⟨?_, ?_, ?_⟩
    · exact mod_eq_zero_of_dvd (Dvd.dvd.add h.alignDvdOffset h.alignDvdBuflen)
    · exact mod_eq_zero_of_dvd (Nat.dvd_sub' (align_up_dvd _ _) h.alignDvdBuflen)
    · show b.offset + b.buflen + (target - b.buflen) ≤ b.cfg.region_size
      simp only [DeviceConfig.region_size]
      omega
  refine ⟨⟨h.alignPos, h.alignDvdRegionSize, h.alignLeRegionSize, ?_, h.alignDvdOffset,
    hfits', ?_, ?_⟩, hgood⟩
  · exact align_up_dvd _ _
  · intro hnone
    rw [show (stagedBuffer b e r vl kl).region = b.region from rfl, hr] at hnone
    cases hnone
  · intro pe hpe
    rw [show (stagedBuffer b e r vl kl).entries = b.entries ++ [stagedEntry b e r vl kl]
      from rfl] at hpe
    rcases List.mem_append.mp hpe with hold | hnew
    · exact h.entriesGood pe hold
    · rw [List.mem_singleton.mp hnew]
      exact hgood

theorem rotate_true_inv (b : FlushBuffer) (r : Nat) (h : BufInv b) :
    BufInv (b.rotate r true).1 := by
  unfold FlushBuffer.rotate
  have hinv := flush_true_inv b h
  have hcfg : (b.flush true).1.cfg = b.cfg := flush_cfg b true
  have hent : (b.flush true).1.entries = [] := by
    cases hr : b.region with
    | none =>
      rw [flush_none_eq b true hr]
      exact (h.noneEmpty hr).2
    | some r' => rw [flush_some_true_eq b r' hr]
  rcases flush_true_ret b with hret | hret
  all_goals cases hf : b.flush true with
  | mk b' res =>
    rw [hf] at hret hinv hcfg hent
    subst hret
    simp only
    refine ⟨hinv.alignPos, hinv.alignDvdRegionSize, hinv.alignLeRegionSize, ?_, ?_, ?_, ?_, ?_⟩
    · exact dvd_refl _
    · exact dvd_zero _
    · simpa [hcfg] using hinv.alignLeRegionSize
    · intro hnone
      cases hnone
    · simpa [hent] using hinv.entriesGood

theorem write_autoflush_err_eq (b : FlushBuffer) (e : Entry) (r vl kl : Nat)
    (hr : b.region = some r) (hv : e.valueEnc = .ok vl) (hk : e.keyEnc = .ok kl)
    (hno : b.offset + (b.buflen + EntryHeader.serialized_len + vl + kl) ≤ b.cfg.region_size)
    (hbig : b.cfg.io_size ≤ (stagedBuffer b e r vl kl).buflen ∨
        (stagedBuffer b e r vl kl).remaining = 0) :
    b.write e false =
      (((stagedBuffer b e r vl kl).flush false).1, .error .deviceError) := by
  simp only [FlushBuffer.write, hr, hv, hk]
  rw [if_neg (by simp only [Nat.add_assoc] at hno ⊢; omega)]
  rw [if_pos (by simpa [stagedBuffer, stagedEntry, Nat.add_assoc, hr] using hbig)]
  simp [FlushBuffer.flush, stagedBuffer, stagedEntry, Nat.add_assoc, hr]

theorem write_true_inv (b : FlushBuffer) (e : Entry) (h : BufInv b) :
    (∀ x, (b.write e true).2 = .ok x → BufInv (b.write e true).1) ∧
    (∀ es, (b.write e true).2 = .ok (.inl es) → ∀ pe ∈ es, goodEntry b.cfg pe) := by
  cases hr : b.region with
  | none =>
    rw [write_none_eq b e true hr]
    exact ⟨fun _ _ => h, fun es hes => by simp at hes⟩
  | some r =>
    cases hv : e.valueEnc with
    | err w =>
      rw [write_valueErr_eq b e true r w hr hv]
      exact ⟨fun x hx => by simp at hx, fun es hes => by simp at hes⟩
    | ok vl =>
      cases hk : e.keyEnc with
      | err w =>
        rw [write_keyErr_eq b e true r vl w hr hv hk]
        exact ⟨fun x hx => by simp at hx, fun es hes => by simp at hes⟩
      | ok kl =>
        by_cases hof :
            b.cfg.region_size < b.offset + (b.buflen + EntryHeader.serialized_len + vl + kl)
        · rw [write_overflow_eq b e true r vl kl hr hv hk hof]
          exact ⟨fun _ _ => h, fun es hes => by simp at hes⟩
        · push_neg at hof
          have hstaged := stagedBuffer_inv b e r vl kl h hr hof
          by_cases hbig : b.cfg.io_size ≤ (stagedBuffer b e r vl kl).buflen ∨
              (stagedBuffer b e r vl kl).remaining = 0
          · rw [write_autoflush_eq b e r vl kl hr hv hk hof hbig]
            refine ⟨fun _ _ => flush_true_inv _ hstaged.1, fun es hes pe hpe => ?_⟩
            simp only [Except.ok.injEq, Sum.inl.injEq] at hes
            subst hes
            rcases List.mem_append.mp hpe with hold | hnew
            · exact h.entriesGood pe hold
            · rw [List.mem_singleton.mp hnew]
              exact hstaged.2
          · rw [write_stage_eq b e true r vl kl hr hv hk hof hbig]
            refine ⟨fun _ _ => hstaged.1, fun es hes pe hpe => ?_⟩
            simp only [Except.ok.injEq, Sum.inl.injEq] at hes
            subst hes
            simp at hpe

theorem write_true_cfg (b : FlushBuffer) (e : Entry) : (b.write e true).1.cfg = b.cfg := by
  cases hr : b.region with
  | none => rw [write_none_eq b e true hr]
  | some r =>
    cases hv : e.valueEnc with
    | err w => rw [write_valueErr_eq b e true r w hr hv]
    | ok vl =>
      cases hk : e.keyEnc with
      | err w => rw [write_keyErr_eq b e true r vl w hr hv hk]
      | ok kl =>
        by_cases hof :
            b.cfg.region_size < b.offset + (b.buflen + EntryHeader.serialized_len + vl + kl)
        · rw [write_overflow_eq b e true r vl kl hr hv hk hof]
        · push_neg at hof
          by_cases hbig : b.cfg.io_size ≤ (stagedBuffer b e r vl kl).buflen ∨
              (stagedBuffer b e r vl kl).remaining = 0
          · rw [write_autoflush_eq b e r vl kl hr hv hk hof hbig]
            show ((stagedBuffer b e r vl kl).flush true).1.cfg = b.cfg
            rw [flush_cfg]
            rfl
          · rw [write_stage_eq b e true r vl kl hr hv hk hof hbig]
            rfl

theorem rotate_true_ret (b : FlushBuffer) (r : Nat) (h : BufInv b) :
    ∀ es, (b.rotate r true).2 = .ok es → ∀ pe ∈ es, goodEntry b.cfg pe := by
  intro es hes pe hpe
  unfold FlushBuffer.rotate at hes
  rcases flush_true_ret b with hret | hret
  all_goals cases hf : b.flush true with
  | mk b' res =>
    rw [hf] at hret
    subst hret
    rw [hf] at hes
    simp only [Except.ok.injEq] at hes
    subst hes
    first
    | simp at hpe
    | exact h.entriesGood pe hpe

theorem applyOp_cfg (b : FlushBuffer) (op : BufOp) : (applyOp b op).1.cfg = b.cfg := by
  cases op with
  | rotateOp r => exact rotate_cfg b r true
  | flushOp => exact flush_cfg b true
  | writeOp e =>
    have hw := write_true_cfg b e
    cases hwe : b.write e true with
    | mk b' res =>
      rw [hwe] at hw
      cases res with
      | error er => simpa [applyOp, hwe] using hw
      | ok x =>
        cases x with
        | inl es => simpa [applyOp, hwe] using hw
        | inr e' => simpa [applyOp, hwe] using hw

theorem applyOp_inv (b : FlushBuffer) (op : BufOp) (h : BufInv b) :
    ∀ es, (applyOp b op).2 = .ok es →
      BufInv (applyOp b op).1 ∧ ∀ pe ∈ es, goodEntry b.cfg pe := by
  intro es hes
  cases op with
  | rotateOp r =>
    exact ⟨rotate_true_inv b r h, rotate_true_ret b r h es hes⟩
  | flushOp =>
    refine ⟨flush_true_inv b h, ?_⟩
    rcases flush_true_ret b with hret | hret
    all_goals
      rw [show (applyOp b .flushOp).2 = (b.flush true).2 from rfl, hret] at hes
    all_goals simp only [Except.ok.injEq] at hes
    all_goals subst hes
    · intro pe hpe
      simp at hpe
    · exact h.entriesGood
  | writeOp e =>
    have hw := write_true_inv b e h
    cases hwe : b.write e true with
    | mk b' res =>
      rw [hwe] at hw
      cases res with
      | error er =>
        simp only [applyOp, hwe] at hes
        simp at hes
      | ok x =>
        cases x with
        | inl es' =>
          simp only [applyOp, hwe] at hes
          simp only [Except.ok.injEq] at hes
          subst hes
          refine ⟨?_, hw.2 _ rfl⟩
          simpa [applyOp, hwe] using hw.1 _ rfl
        | inr e' =>
          simp only [applyOp, hwe] at hes
          simp only [Except.ok.injEq] at hes
          subst hes
          refine ⟨?_, by intro pe hpe; simp at hpe⟩
          simpa [applyOp, hwe] using hw.1 _ rfl

theorem runOps_good (ops : List BufOp) :
    ∀ b : FlushBuffer, BufInv b → ∀ pe ∈ (runOps b ops).2, goodEntry b.cfg pe := by
  induction ops with
  | nil =>
    intro b _ pe hpe
    simp [runOps] at hpe
  | cons op ops ih =>
    intro b h pe hpe
    rw [show runOps b (op :: ops) =
      match applyOp b op with
      | (b', .ok es) => ((runOps b' ops).1, es ++ (runOps b' ops).2)
      | (b', .error _) => (b', []) from rfl] at hpe
    cases hap : applyOp b op with
    | mk b' res =>
      have hcfg : b'.cfg = b.cfg := by rw [← applyOp_cfg b op, hap]
      cases res with
      | error er =>
        rw [hap] at hpe
        simp at hpe
      | ok es =>
        rw [hap] at hpe
        simp only at hpe
        have hinv := applyOp_inv b op h es (by rw [hap])
        rcases List.mem_append.mp hpe with hin | hin
        · exact hinv.2 pe hin
        · have := ih b' (by simpa [hap] using hinv.1) pe hin
          rwa [hcfg] at this

theorem rotate_true_mk (b : FlushBuffer) (r : Nat) (bf : FlushBuffer)
    (res : Except BufferError (List PositionedEntry)) (es : List PositionedEntry)
    (hf : b.flush true = (bf, res)) (hres : res = .ok es) :
    b.rotate r true =
      ({ bf with
          region := some r
          offset := 0
          buflen := bf.cfg.align
          hdr := some { magic := REGION_MAGIC, version := Version.latest } },
        .ok es) := by
  subst hres
  unfold FlushBuffer.rotate
  rw [hf]

theorem flush_true_res_cases (b : FlushBuffer) (bf : FlushBuffer)
    (res : Except BufferError (List PositionedEntry)) (hf : b.flush true = (bf, res)) :
    res = .ok [] ∨ res = .ok b.entries := by
  rcases flush_true_ret b with h | h
  · left
    rw [hf] at h
    exact h
  · right
    rw [hf] at h
    exact h

section Claims

/-- C4: for every sequence of successful `FlushBuffer` operations (rotate,
write, flush) run from a fresh buffer on a device whose alignment is
positive, divides the region size, and is at most the region size, every
`PositionedEntry` produced satisfies `offset % align = 0`,
`len % align = 0`, and `offset + len ≤ region_size`. -/
theorem claim_C4_positioned_entries_aligned (cfg : DeviceConfig) (ops : List BufOp)
    (h1 : 0 < cfg.align) (h2 : cfg.align ∣ cfg.file_size) (h3 : cfg.align ≤ cfg.file_size) :
    ∀ pe ∈ (runOps (FlushBuffer.new cfg) ops).2, goodEntry cfg pe := by
  have h := runOps_good ops (FlushBuffer.new cfg) (bufInv_new cfg h1 h2 h3)
  simpa [FlushBuffer.new] using h

/-- Witness for C4: the ~54 KiB entry written right after rotating into
region 0 is flushed at `[4096, 61440)`, and that record is well aligned and
in bounds. -/
theorem claim_C4_witness :
    goodEntry c7cfg { entry := c7entryA, region := 0, offset := 4096, len := 57344 } :=
  claim_C4_positioned_entries_aligned c7cfg [.rotateOp 0, .writeOp c7entryA]
    (by decide) (by decide) (by decide)
    { entry := c7entryA, region := 0, offset := 4096, len := 57344 } (by decide)

/-- C5: `FlushBuffer::write` (with both codecs succeeding) returns
`Right(entry)` exactly when no region is installed or the serialized entry
would make `offset + buffer.len()` exceed the region size; in both cases
the buffer is left exactly as it was (length restored to `old`, no
`PositionedEntry` recorded) and the rejected entry is returned unchanged. -/
theorem claim_C5_write_right_iff (b : FlushBuffer) (e : Entry) (ok : Bool) (vl kl : Nat)
    (hv : e.valueEnc = .ok vl) (hk : e.keyEnc = .ok kl) :
    ((b.write e ok).2 = .ok (.inr e) ↔
      (b.region = none ∨
        b.cfg.region_size < b.offset + (b.buflen + EntryHeader.serialized_len + vl + kl))) ∧
    ((b.region = none ∨
        b.cfg.region_size < b.offset + (b.buflen + EntryHeader.serialized_len + vl + kl)) →
      (b.write e ok).1 = b) := by
  constructor
  · constructor
    · intro hres
      cases hr : b.region with
      | none => exact Or.inl rfl
      | some r =>
        by_cases hof :
            b.cfg.region_size < b.offset + (b.buflen + EntryHeader.serialized_len + vl + kl)
        · exact Or.inr hof
        · exfalso
          push_neg at hof
          by_cases hbig : b.cfg.io_size ≤ (stagedBuffer b e r vl kl).buflen ∨
              (stagedBuffer b e r vl kl).remaining = 0
          · cases ok with
            | true =>
              rw [write_autoflush_eq b e r vl kl hr hv hk hof hbig] at hres
              simp at hres
            | false =>
              rw [write_autoflush_err_eq b e r vl kl hr hv hk hof hbig] at hres
              simp at hres
          · rw [write_stage_eq b e ok r vl kl hr hv hk hof hbig] at hres
            simp at hres
    · intro hor
      rcases hor with hr | hof
      · rw [write_none_eq b e ok hr]
      · cases hr : b.region with
        | none => rw [write_none_eq b e ok hr]
        | some r => rw [write_overflow_eq b e ok r vl kl hr hv hk hof]
  · intro hor
    rcases hor with hr | hof
    · rw [write_none_eq b e ok hr]
    · cases hr : b.region with
      | none => rw [write_none_eq b e ok hr]
      | some r => rw [write_overflow_eq b e ok r vl kl hr hv hk hof]

/-- Witness for C5: on a fresh buffer (no region installed) the write
returns the entry unchanged and leaves the buffer untouched. -/
theorem claim_C5_witness :
    (c5buf.write c5entry true).2 = .ok (.inr c5entry) ∧ (c5buf.write c5entry true).1 = c5buf := by
  have h := claim_C5_write_right_iff c5buf c5entry true 10 0 rfl rfl
  exact ⟨h.1.mpr (Or.inl rfl), h.2 (Or.inl rfl)⟩

/-- C6: `FlushBuffer::flush` with no region returns the empty list and
leaves the state untouched; with a region installed and a successful device
write it empties the buffer, advances `offset` by the padded length
`align_up(align, buffer.len())`, drains and returns the queued
`PositionedEntry` list, and clears `region` exactly when the advanced
offset equals the region size; on a failed device write the error
propagates and the queued entries remain. -/
theorem claim_C6_flush_contract (b : FlushBuffer) :
    (∀ ok, b.region = none → b.flush ok = (b, .ok [])) ∧
    (∀ r, b.region = some r →
      (b.flush true).1.buflen = 0 ∧
      (b.flush true).1.offset = b.offset + align_up b.cfg.align b.buflen ∧
      (b.flush true).2 = .ok b.entries ∧
      (b.flush true).1.entries = [] ∧
      ((b.flush true).1.region = none ↔
        b.offset + align_up b.cfg.align b.buflen = b.cfg.region_size) ∧
      (b.flush false).2 = .error .deviceError ∧
      (b.flush false).1.entries = b.entries) := by
  constructor
  · intro ok hr
    exact flush_none_eq b ok hr
  · intro r hr
    rw [flush_some_true_eq b r hr, flush_some_false_eq b r hr]
    refine ⟨rfl, rfl, rfl, rfl, ?_, rfl, rfl⟩
    by_cases hfull : b.offset + align_up b.cfg.align b.buflen = b.cfg.region_size
    · simp [hfull]
    · simp [hfull]

/-- Witness for C6: a buffer holding one 4-KiB staged block at offset 4096
of region 0 flushes to offset 8192, returning its single queued record;
with a failing device the error surfaces and the record stays queued. -/
theorem claim_C6_witness :
    (c6buf.flush true).1.offset = 8192 ∧
    (c6buf.flush true).2 =
      .ok [{ entry := c7entryB, region := 0, offset := 4096, len := 4096 }] ∧
    (c6buf.flush false).2 = .error .deviceError ∧
    (c6buf.flush false).1.entries =
      [{ entry := c7entryB, region := 0, offset := 4096, len := 4096 }] := by
  have h := (claim_C6_flush_contract c6buf).2 0 rfl
  refine ⟨?_, h.2.2.1, h.2.2.2.2.2.1, h.2.2.2.2.2.2⟩
  have h2 := h.2.1
  simpa using h2

/-- C7: a successful `FlushBuffer::write` auto-flushes exactly when the
padded buffer length reaches `io_size` or the remaining region space is
zero — returning the flushed entries — and otherwise stages and returns
`Left([])`; concretely (spec scenario 2, `align = 4096`,
`file_size = 65536`, `io_size = 16384`), after rotating into region 1 the
~54 KiB entry occupies `[4096, 61440)` and is auto-flushed, the subsequent
~3 KiB entry occupies `[61440, 65536)`, `remaining` hits 0 triggering
auto-flush, and `region()` becomes `None`. -/
theorem claim_C7_autoflush (b : FlushBuffer) (e : Entry) (r vl kl : Nat)
    (hr : b.region = some r) (hv : e.valueEnc = .ok vl) (hk : e.keyEnc = .ok kl)
    (hno : b.offset + (b.buflen + EntryHeader.serialized_len + vl + kl) ≤ b.cfg.region_size) :
    (((b.cfg.io_size ≤ (stagedBuffer b e r vl kl).buflen ∨
          (stagedBuffer b e r vl kl).remaining = 0) →
        (b.write e true).2 = .ok (.inl (b.entries ++ [stagedEntry b e r vl kl]))) ∧
      (¬(b.cfg.io_size ≤ (stagedBuffer b e r vl kl).buflen ∨
          (stagedBuffer b e r vl kl).remaining = 0) →
        b.write e true = (stagedBuffer b e r vl kl, .ok (.inl [])))) ∧
    (((FlushBuffer.new c7cfg).rotate 1 true).2 = .ok [] ∧
      (c7b1.write c7entryA true).2 =
        .ok (.inl [{ entry := c7entryA, region := 1, offset := 4096, len := 57344 }]) ∧
      c7b2.region = some 1 ∧
      c7b2.offset = 61440 ∧
      (stagedBuffer c7b2 c7entryB 1 2952 0).remaining = 0 ∧
      (c7b2.write c7entryB true).2 =
        .ok (.inl [{ entry := c7entryB, region := 1, offset := 61440, len := 4096 }]) ∧
      (c7b2.write c7entryB true).1.region = none) := by
  constructor
  · constructor
    · intro hbig
      rw [write_autoflush_eq b e r vl kl hr hv hk hno hbig]
    · intro hsmall
      exact write_stage_eq b e true r vl kl hr hv hk hno hsmall
  · refine ⟨by decide, by decide, by decide, by decide, by decide, by decide, by decide⟩

/-- Witness for C7: the general auto-flush rule applied to the concrete
~54 KiB write of scenario 2 — the staged buffer crosses `io_size`, so the
write returns the flushed record. -/
theorem claim_C7_witness :
    (c7b1.write c7entryA true).2 =
      .ok (.inl (c7b1.entries ++ [stagedEntry c7b1 c7entryA 1 55176 0])) :=
  ((claim_C7_autoflush c7b1 c7entryA 1 55176 0 (by decide) rfl rfl (by decide)).1).1
    (by decide)

/-- C8: a successful `FlushBuffer::rotate(new_region)` first flushes the
current contents, then sets `region = Some(new_region)` and `offset = 0`,
stages the region header (magic constant, latest version) in the first
aligned block so the buffer length equals `align`, and returns exactly the
records the flush step flushed. -/
theorem claim_C8_rotate_contract (b : FlushBuffer) (r : Nat) :
    (b.rotate r true).1.region = some r ∧
    (b.rotate r true).1.offset = 0 ∧
    (b.rotate r true).1.buflen = b.cfg.align ∧
    (b.rotate r true).1.hdr = some { magic := REGION_MAGIC, version := Version.latest } ∧
    (b.rotate r true).1.entries = (b.flush true).1.entries ∧
    (b.rotate r true).2 = (b.flush true).2 := by
  unfold FlushBuffer.rotate
  rcases flush_true_ret b with hret | hret
  all_goals cases hf : b.flush true with
  | mk b' res =>
    rw [hf] at hret
    simp only at hret
    subst hret
    have hc : b'.cfg = b.cfg := by rw [← flush_cfg b true, hf]
    simp [hf, hc]

section C9Proof

/-- C9: for every builder input whose alignment (given or defaulted to
4096) is a power of two and whose capacity source (given or 80% of free
space) is at least that alignment, the build succeeds and the built config
satisfies the post-build assertions `align.is_power_of_two()`,
`file_size % align == 0`, `capacity % file_size == 0`, with
`align ≤ file_size`, `align ≤ io_size`, and `io_size % align == 0`. -/
theorem claim_C9_builder_assertions (bld : FsDeviceConfigBuilder) (free : Nat)
    (hpow : is_power_of_two (bld.align.getD FsDeviceConfigBuilder.DEFAULT_ALIGN) = true)
    (hcap : bld.align.getD FsDeviceConfigBuilder.DEFAULT_ALIGN ≤
      bld.capacity.getD (free / 10 * 8)) :
    buildAsserted (bld.build free) := by
  have ha : 0 < bld.align.getD FsDeviceConfigBuilder.DEFAULT_ALIGN :=
    is_power_of_two_pos hpow
  set align := bld.align.getD FsDeviceConfigBuilder.DEFAULT_ALIGN with halign
  set cap0 := bld.capacity.getD (free / 10 * 8) with hcap0
  set cap1 := align_v cap0 align with hcap1
  set fsd := bld.file_size.getD FsDeviceConfigBuilder.DEFAULT_FILE_SIZE with hfsd
  have hcap1ge : align ≤ cap1 := le_align_v cap0 align ha hcap
  have hclamp : rustClamp fsd align cap1 = some (min (max fsd align) cap1) := by
    unfold rustClamp
    rw [if_neg (by omega)]
  have hfs0ge : align ≤ min (max fsd align) cap1 :=
    le_min (le_max_right fsd align) hcap1ge
  have hfsge : align ≤ align_v (min (max fsd align) cap1) align :=
    le_align_v _ align ha hfs0ge
  have hfspos : 0 < align_v (min (max fsd align) cap1) align := by omega
  have hioge : align ≤ align_v (max (bld.io_size.getD FsDeviceConfigBuilder.DEFAULT_IO_SIZE) align) align :=
    le_align_v _ align ha (le_max_right _ align)
  simp only [FsDeviceConfigBuilder.build, ← halign, ← hcap0, ← hcap1, ← hfsd, hclamp]
  refine ⟨⟨hpow, ?_, ?_⟩, hfsge, hioge, ?_⟩
  · exact align_v_mod _ align
  · exact align_v_mod _ _
  · exact align_v_mod _ align

end C9Proof

/-- Witness for C9: the all-defaults builder on a filesystem with 1 GB
free space builds a config passing every post-build assertion. -/
theorem claim_C9_witness :
    buildAsserted (FsDeviceConfigBuilder.build ⟨none, none, none, none⟩ 1000000000) :=
  claim_C9_builder_assertions ⟨none, none, none, none⟩ 1000000000 (by decide) (by decide)

/-- C10: when the device write of `FlushBuffer::flush` fails, the staging
buffer had already been swapped for a fresh empty one, so afterwards the
buffer length is 0 while `offset`, `region` and the queued
`PositionedEntry` list are unchanged; a subsequent successful flush writes
only the fresh (empty) buffer — it advances `offset` by 0, so the bytes
the queued records describe are never rewritten. -/
theorem claim_C10_flush_error_state (b : FlushBuffer) (r : Nat)
    (hr : b.region = some r) (ha : 0 < b.cfg.align) :
    b.flush false = ({ b with buflen := 0, hdr := none }, .error .deviceError) ∧
    ((b.flush false).1.flush true).1.offset = b.offset := by
  have h1 := flush_some_false_eq b r hr
  refine ⟨h1, ?_⟩
  rw [h1]
  have hr2 : ({ b with buflen := 0, hdr := none } : FlushBuffer).region = some r := hr
  rw [flush_some_true_eq _ r hr2]
  show b.offset + align_up b.cfg.align 0 = b.offset
  rw [align_up_zero _ ha]
  omega

/-- Witness for C10: a buffer with two staged 4-KiB blocks at offset 12288
of region 2 hit by a failed device write keeps its offset, region and
queued record while its length drops to 0; the follow-up flush leaves the
offset at 12288. -/
theorem claim_C10_witness :
    c10buf.flush false = ({ c10buf with buflen := 0, hdr := none }, .error .deviceError) ∧
    ((c10buf.flush false).1.flush true).1.offset = 12288 := by
  have h := claim_C10_flush_error_state c10buf 2 rfl (by decide)
  exact ⟨h.1, h.2⟩

/-- C1 counterexample: a flusher state holding one staged (not yet
published) entry with key 7 and an empty catalog.  The stop branch of
`Flusher::run` exits cleanly — no error is reported — yet key 7 is still
absent from the catalog afterwards: the records returned by the final
flush are dropped, so the staged entry is lost to the catalog, refuting
the claim that every previously-staged entry is published or reported as
an error. -/
theorem claim_C1_counterexample :
    c1state.buffer.entries = [{ entry := c1entry, region := 0, offset := 4096, len := 4096 }] ∧
    (Flusher.runStop c1state true).2 = .ok () ∧
    Catalog.lookup (Flusher.runStop c1state true).1.catalog 7 = none :=
  ⟨rfl, rfl, rfl⟩

/-- C1 (amended): when the stop signal fires or the entry channel closes,
the flusher performs a final buffer flush before exiting, which empties the
staging buffer (the staged bytes are handed to the device); but the
`PositionedEntry` records that final flush returns are discarded, not
published: the catalog is left unchanged, so entries staged but not yet
flushed at stop time never reach the catalog. -/
theorem claim_C1_final_flush_discards (st : FlusherState) (r : Nat)
    (hr : st.buffer.region = some r) :
    (Flusher.runStop st true).2 = .ok () ∧
    (Flusher.runStop st true).1.buffer.buflen = 0 ∧
    (Flusher.runStop st true).1.buffer.entries = [] ∧
    (Flusher.runStop st true).1.catalog = st.catalog := by
  have hf := flush_some_true_eq st.buffer r hr
  unfold Flusher.runStop
  rw [hf]
  exact ⟨rfl, rfl, rfl, rfl⟩

/-- Witness for the amended C1 at the concrete one-staged-entry state. -/
theorem claim_C1_witness :
    (Flusher.runStop c1state true).2 = .ok () ∧
    (Flusher.runStop c1state true).1.buffer.buflen = 0 ∧
    (Flusher.runStop c1state true).1.buffer.entries = [] ∧
    (Flusher.runStop c1state true).1.catalog = c1state.catalog :=
  claim_C1_final_flush_discards c1state 0 rfl

/-- C2 counterexample: a value-codec failure after 7 appended bytes on an
empty buffer (`old = 0`) surfaces the codec error, but the buffer length
afterwards is `25 + 7 = 32`, not the pre-write value `old = 0`: the partial
bytes are not discarded, refuting the claimed rollback to `old`. -/
theorem claim_C2_counterexample :
    (c2buf.write c2entry true).2 = .error .codecError ∧
    c2buf.buflen = 0 ∧
    (c2buf.write c2entry true).1.buflen = 32 ∧
    ¬(c2buf.write c2entry true).1.buflen = c2buf.buflen :=
  ⟨rfl, rfl, rfl, by decide⟩

/-- C2 (amended): when serialization of the value (under any compression
variant) or of the key fails with a codec error, the error is surfaced to
the caller, but the partial bytes are not discarded: the buffer keeps the
reserved header space plus whatever the failing encoder appended (length
`old + header_len + written`, resp. `old + header_len + value_len +
written`), while `offset`, `region` and the queued entries are untouched;
no `PositionedEntry` is recorded for the failed write. -/
theorem claim_C2_codec_error_surfaced (b : FlushBuffer) (e : Entry) (ok : Bool) (r : Nat)
    (hr : b.region = some r) :
    (∀ w, e.valueEnc = .err w →
      b.write e ok =
        ({ b with buflen := b.buflen + EntryHeader.serialized_len + w },
          .error .codecError)) ∧
    (∀ vl w, e.valueEnc = .ok vl → e.keyEnc = .err w →
      b.write e ok =
        ({ b with buflen := b.buflen + EntryHeader.serialized_len + vl + w },
          .error .codecError)) :=
  ⟨fun w hv => write_valueErr_eq b e ok r w hr hv,
    fun vl w hv hk => write_keyErr_eq b e ok r vl w hr hv hk⟩

/-- Witness for the amended C2: the concrete failing value encoder leaves
32 bytes staged and surfaces the codec error. -/
theorem claim_C2_witness :
    c2buf.write c2entry true = ({ c2buf with buflen := 32 }, .error .codecError) := by
  have h := (claim_C2_codec_error_surfaced c2buf c2entry true 0 rfl).1 7 rfl
  exact h

/-- C3 counterexample: an entry whose serialized size (65536 value bytes
plus header) exceeds a fresh region's usable space.  `handle` rotates and
retries, the retried `write` returns `Right`, and `unwrap_left()` panics:
the outcome is a crash of the flusher, not a reported oversized-entry
error — refuting the "rather than crashing the flusher" part of the
claim. -/
theorem claim_C3_counterexample :
    (Flusher.handle c3state c3bigEntry 0 true true true).isCrashed = true ∧
    (Flusher.handle c3state c3bigEntry 0 true true true).isOk = false :=
  ⟨rfl, rfl⟩

/-- C3 (amended): after a clean region has been acquired and the buffer
rotated into it, the retried `FlushBuffer::write` of the rejected entry
succeeds (returns `Left`, so `handle` returns normally) whenever the entry
fits in a fresh region (`align + header + value + key ≤ region_size`); if
the entry is larger than a fresh region's usable space the retried write
returns `Right` and the flusher panics on `unwrap_left()` — the entry is
not reported as an error, the flusher crashes. -/
theorem claim_C3_retry_after_rotate (st : FlusherState) (e : Entry) (r : Nat)
    (b1 : FlushBuffer) (vl kl : Nat)
    (hv : e.valueEnc = .ok vl) (hk : e.keyEnc = .ok kl)
    (hw : st.buffer.write e true = (b1, .ok (.inr e))) :
    (b1.cfg.align + EntryHeader.serialized_len + vl + kl ≤ b1.cfg.file_size →
      (Flusher.handle st e r true true true).isOk = true) ∧
    (b1.cfg.file_size < b1.cfg.align + EntryHeader.serialized_len + vl + kl →
      (Flusher.handle st e r true true true).isCrashed = true) := by
  cases hf : b1.flush true with
  | mk bf resf =>
    have hcfg : bf.cfg = b1.cfg := by rw [← flush_cfg b1 true, hf]
    obtain ⟨es0, hres⟩ : ∃ es0, resf = .ok es0 := by
      rcases flush_true_res_cases b1 bf resf hf with h | h
      exacts [⟨[], h⟩, ⟨b1.entries, h⟩]
    have hrot := rotate_true_mk b1 r bf resf es0 hf hres
    unfold Flusher.handle
    rw [hw]
    dsimp only
    rw [hrot]
    dsimp only
    set B2 : FlushBuffer :=
      { bf with
          region := some r
          offset := 0
          buflen := bf.cfg.align
          hdr := some { magic := REGION_MAGIC, version := Version.latest } } with hB2
    have hr2 : B2.region = some r := rfl
    constructor
    · intro hfit
      have hno : B2.offset + (B2.buflen + EntryHeader.serialized_len + vl + kl) ≤
          B2.cfg.region_size := by
        show 0 + (bf.cfg.align + EntryHeader.serialized_len + vl + kl) ≤ bf.cfg.region_size
        rw [hcfg]
        simpa [DeviceConfig.region_size] using hfit
      by_cases hbig : B2.cfg.io_size ≤ (stagedBuffer B2 e r vl kl).buflen ∨
          (stagedBuffer B2 e r vl kl).remaining = 0
      · rw [write_autoflush_eq B2 e r vl kl hr2 hv hk hno hbig]
        rfl
      · rw [write_stage_eq B2 e true r vl kl hr2 hv hk hno hbig]
        rfl
    · intro hbigentry
      have hof : B2.cfg.region_size < B2.offset +
          (B2.buflen + EntryHeader.serialized_len + vl + kl) := by
        show bf.cfg.region_size < 0 + (bf.cfg.align + EntryHeader.serialized_len + vl + kl)
        rw [hcfg]
        simpa [DeviceConfig.region_size] using hbigentry
      rw [write_overflow_eq B2 e true r vl kl hr2 hv hk hof]
      rfl

/-- Witness for the amended C3: a 100-byte entry rejected only because no
region was installed is retried after rotation and `handle` returns
normally. -/
theorem claim_C3_witness :
    (Flusher.handle c3state c3smallEntry 0 true true true).isOk = true :=
  (claim_C3_retry_after_rotate c3state c3smallEntry 0 c3state.buffer 100 0
    rfl rfl rfl).1 (by decide)

end Claims
